import Mathlib

/-!
Shallow embedding of the prediction lifecycle core of the `replicate-rust`
client library: the identifier parser (`parse_version`), the retry policy,
and the `PredictionClient` operations `create`, `reload`, `cancel`, `wait`,
together with the status-checking resource accessors.

HTTP transport and the JSON codec are black boxes in the source (reqwest and
serde); here a server interaction is a `SendResult` value handed to the
operation, and each deserialization target `T` has its decoder passed in as
a function `String → Option T`.
-/

namespace Replicate

/-- Wire statuses of a prediction (`api_definitions.rs`, `PredictionStatus`). -/
inductive PredictionStatus where
  | starting
  | processing
  | succeeded
  | failed
  | canceled
deriving DecidableEq, Repr

/-- The three right-hand states of the lifecycle state machine are terminal. -/
def PredictionStatus.isTerminal : PredictionStatus → Bool
  | .succeeded => true
  | .failed => true
  | .canceled => true
  | .starting => false
  | .processing => false

/-- Rust `parse_version` from `prediction_client.rs`: split at the FIRST `:` into
(model, rest); `splitn(2, ':')` yields no second part when there is no colon.
Scanning the character list: the part before the first colon, and the
remainder when a colon exists. -/
def splitnTwoColon : List Char → List Char × Option (List Char)
  | [] => ([], none)
  | c :: cs =>
    if c = ':' then ([], some cs)
    else
      let r := splitnTwoColon cs
      (c :: r.1, r.2)

/-- Rust `parse_version` (`prediction_client.rs` lines 44–58): split the string at
the first colon; fail when there is no colon or the model part has no slash. -/
def parse_version (s : String) : Option (String × String) :=
  let parts := splitnTwoColon s.data
  match parts.2 with
  | none => none
  | some v =>
    if (parts.1.contains '/') = true then some (⟨parts.1⟩, ⟨v⟩) else none

theorem splitnTwoColon_no_colon (l : List Char) (h : l.contains ':' = false) :
    splitnTwoColon l = (l, none) := by
  induction l with
  | nil => rfl
  | cons c cs ih =>
    simp only [List.contains_cons, Bool.or_eq_false_iff, beq_eq_false_iff_ne] at h
    rw [splitnTwoColon, if_neg (Ne.symm h.1), ih h.2]

theorem splitnTwoColon_append (m v : List Char) (h : m.contains ':' = false) :
    splitnTwoColon (m ++ ':' :: v) = (m, some v) := by
  induction m with
  | nil => simp [splitnTwoColon]
  | cons c cs ih =>
    simp only [List.contains_cons, Bool.or_eq_false_iff, beq_eq_false_iff_ne] at h
    rw [List.cons_append, splitnTwoColon, if_neg (Ne.symm h.1), ih h.2]

theorem parse_version_eq_some (m v : String) (hm : m.data.contains ':' = false)
    (hs : m.data.contains '/' = true) :
    parse_version (m ++ ":" ++ v) = some (m, v) := by
  have hdata : (m ++ ":" ++ v).data = m.data ++ ':' :: v.data := by
    simp [String.data_append]
  simp only [parse_version, hdata, splitnTwoColon_append m.data v.data hm, hs,
    if_true]

theorem parse_version_no_colon (s : String) (h : s.data.contains ':' = false) :
    parse_version s = none := by
  simp only [parse_version, splitnTwoColon_no_colon s.data h]

theorem parse_version_no_slash (m v : String) (hm : m.data.contains ':' = false)
    (hs : m.data.contains '/' = false) :
    parse_version (m ++ ":" ++ v) = none := by
  have hdata : (m ++ ":" ++ v).data = m.data ++ ':' :: v.data := by
    simp [String.data_append]
  simp only [parse_version, hdata, splitnTwoColon_append m.data v.data hm, hs]
  simp

/-- Arbitrary JSON-shaped values (the black-box `serde_json::Value`). -/
inductive Json where
  | null
  | bool (b : Bool)
  | num (n : Int)
  | str (s : String)
  | arr (xs : List Json)
  | obj (fields : List (String × Json))

/-- The input mapping `HashMap<String, serde_json::Value>`, as an association
list of its entries. -/
abbrev InputMap := List (String × Json)

/-- Rust `Config` (`config.rs`): credential token, user agent, base endpoint. -/
structure Config where
  auth : String
  user_agent : String
  base_url : String

/-- Rust `PredictionsUrls` (`api_definitions.rs`). -/
structure PredictionsUrls where
  cancel : String
  get : String

/-- Rust `PredictionSource` (`api_definitions.rs`). -/
inductive PredictionSource where
  | api
  | web
deriving DecidableEq, Repr

/-- Rust `GetPrediction` (`api_definitions.rs`): the full prediction entity as
returned by `GET /predictions/{id}`. -/
structure GetPrediction where
  id : String
  version : String
  urls : PredictionsUrls
  created_at : String
  started_at : Option String
  completed_at : Option String
  source : Option PredictionSource
  status : PredictionStatus
  input : InputMap
  output : Option Json
  error : Option String
  logs : Option String
  metrics : Option (List (String × Json))

/-- Rust `CreatePrediction` (`api_definitions.rs`): the entity returned by
`POST /predictions`. -/
structure CreatePrediction where
  id : String
  version : String
  urls : PredictionsUrls
  created_at : String
  status : PredictionStatus
  input : InputMap
  error : Option String
  logs : Option String

/-- Rust `ReplicateError` (`errors.rs`): the four error kinds of the library.
`prediction_client.rs` boxes its errors as `Box<dyn Error>`; the transport,
response-body and deserialization failures it produces are modelled with the
corresponding kind here. -/
inductive ReplicateError where
  | ReqwestError (msg : String)
  | ResponseError (body : String)
  | SerdeError (body : String)
  | InvalidVersionString (s : String)

/-- An HTTP response: whether `status().is_success()` holds (2xx), and the
raw body text that `text()` returns. -/
structure HttpResponse where
  success : Bool
  body : String

/-- Outcome of one `send()` call: a transport error, or a response. -/
inductive SendResult where
  | err (msg : String)
  | ok (r : HttpResponse)

/-- A decoder `String → Option T` stands for the black-box
`serde_json::from_str::<T>`; `none` is a deserialization failure. -/
abbrev Decoder (T : Type) := String → Option T

/-- Rust `RetryStrategy` (`retry.rs`): currently only fixed delay. -/
inductive RetryStrategy where
  | FixedDelay (ms : Nat)

/-- Rust `RetryPolicy` (`retry.rs`): a max-retries budget and a strategy. -/
structure RetryPolicy where
  max_retries : Nat
  strategy : RetryStrategy

/-- Rust `RetryPolicy::new` (`retry.rs`). -/
def RetryPolicy.new (max_retries : Nat) (strategy : RetryStrategy) : RetryPolicy :=
  ⟨max_retries, strategy⟩

/-- Rust `RetryPolicy::step` (`retry.rs`): sleeps for the configured number of
milliseconds; modelled as returning the duration slept. -/
def RetryPolicy.step (p : RetryPolicy) : Nat :=
  match p.strategy with
  | .FixedDelay delay => delay

/-- Rust `PredictionClient` (`prediction_client.rs`): the lifecycle client's local
state. -/
structure PredictionClient where
  parent : Config
  id : String
  version : String
  urls : PredictionsUrls
  created_at : String
  status : PredictionStatus
  input : InputMap
  error : Option String
  logs : Option String

/-- Rust `PredictionPayload` (`prediction.rs` lines 71–78): the request body of
`POST /predictions` — exactly a `version` field and an `input` field. -/
structure PredictionPayload where
  version : String
  input : InputMap

/-- Outcome of `PredictionClient::create`: the code `unwrap`s the parse
result, so a parse failure is a panic, not an error return. -/
inductive CreateOutcome where
  | panicked
  | err (e : ReplicateError)
  | ok (c : PredictionClient)

/-- Rust `PredictionClient::create` (`prediction_client.rs` lines 103–143), given
the server's reply to the issued POST. `parse_version(..).unwrap()` panics on
a parse failure, before any request body is built; otherwise the payload
built from the version part and the input mapping is POSTed (returned here as
the first component). On a 2xx reply the body is deserialized as
`CreatePrediction` and the client's fields are initialized from it; on a
non-2xx reply the raw body text becomes the error. -/
def PredictionClient.create (dec : Decoder CreatePrediction) (rep : Config)
    (version : String) (inputs : InputMap) (resp : SendResult) :
    Option PredictionPayload × CreateOutcome :=
  match parse_version version with
  | none => (none, .panicked)
  | some (_model, v) =>
    let payload : PredictionPayload := ⟨v, inputs⟩
    match resp with
    | .err m => (some payload, .err (.ReqwestError m))
    | .ok r =>
      if r.success then
        match dec r.body with
        | some result =>
          (some payload,
           .ok { parent := rep, id := result.id, version := result.version,
                 urls := result.urls, created_at := result.created_at,
                 status := result.status, input := result.input,
                 error := result.error, logs := result.logs })
        | none => (some payload, .err (.SerdeError r.body))
      else
        (some payload, .err (.ResponseError r.body))

/-- Rust `PredictionClient::reload` (`prediction_client.rs` lines 168–190), given
the server's reply to the issued GET. The response's HTTP status is never
inspected: the body text is deserialized directly, and every local field is
replaced by the deserialized response. Returns the GET request's URL together
with the outcome. -/
def PredictionClient.reload (dec : Decoder GetPrediction)
    (c : PredictionClient) (resp : SendResult) :
    String × Except ReplicateError PredictionClient :=
  let url := c.parent.base_url ++ "/predictions/" ++ c.id
  match resp with
  | .err m => (url, .error (.ReqwestError m))
  | .ok r =>
    match dec r.body with
    | none => (url, .error (.SerdeError r.body))
    | some p =>
      (url, .ok { c with id := p.id, version := p.version, urls := p.urls,
                         created_at := p.created_at, status := p.status,
                         input := p.input, error := p.error, logs := p.logs })

/-- A request issued to the server. -/
inductive Req where
  | post (url : String)
  | get (url : String)

/-- Rust `PredictionClient::cancel` (`prediction_client.rs` lines 218–232): POST
to the cancel sub-resource (only a transport failure of `send()` is
propagated — the cancel response itself is discarded), then `reload()`.
Returns the requests issued in order, the client state after the call, and
the result. -/
def PredictionClient.cancel (dec : Decoder GetPrediction)
    (c : PredictionClient) (postResp : SendResult) (getResp : SendResult) :
    List Req × PredictionClient × Except ReplicateError Unit :=
  let cancelUrl := c.parent.base_url ++ "/predictions/" ++ c.id ++ "/cancel"
  match postResp with
  | .err m => ([.post cancelUrl], c, .error (.ReqwestError m))
  | .ok _ =>
    match c.reload dec getResp with
    | (url, .error e) => ([.post cancelUrl, .get url], c, .error e)
    | (url, .ok c') => ([.post cancelUrl, .get url], c', .ok ())

/-- Observable trace of one `wait()` call that has returned: the number of
GET polls issued, the retry-policy sleeps performed (durations in order), and
the returned value. -/
structure WaitTrace where
  polls : Nat
  sleeps : List Nat
  result : Except ReplicateError GetPrediction

/-- The polling loop of `PredictionClient::wait` (`prediction_client.rs`
lines 263–285), one recursion step per loop iteration, consuming the server's
reply to each successive GET. The client state is threaded unchanged through
every branch, exactly as the loop body never assigns to `self`. A transport
or deserialization failure is returned at once; a terminal status
(`succeeded`, `failed`, `canceled`) returns the deserialized entity; a
non-terminal status (`starting`, `processing`) invokes `retry_policy.step()`
and loops. `none` means the finite reply script ran out while the loop was
still polling. -/
def waitGo (dec : Decoder GetPrediction) (p : RetryPolicy)
    (c : PredictionClient) :
    List SendResult → PredictionClient × Option WaitTrace
  | [] => (c, none)
  | resp :: rest =>
    match resp with
    | .err m => (c, some ⟨1, [], .error (.ReqwestError m)⟩)
    | .ok r =>
      match dec r.body with
      | none => (c, some ⟨1, [], .error (.SerdeError r.body)⟩)
      | some pred =>
        match pred.status with
        | .succeeded | .failed | .canceled => (c, some ⟨1, [], .ok pred⟩)
        | .processing | .starting =>
          match waitGo dec p c rest with
          | (c', none) => (c', none)
          | (c', some t) => (c', some ⟨t.polls + 1, p.step :: t.sleeps, t.result⟩)

/-- Rust `PredictionClient::wait` (`prediction_client.rs` lines 258–286): the loop
run with the policy the code constructs, `RetryPolicy::new(5,
RetryStrategy::FixedDelay(1000))`. -/
def PredictionClient.wait (dec : Decoder GetPrediction) (c : PredictionClient)
    (resps : List SendResult) : PredictionClient × Option WaitTrace :=
  waitGo dec (RetryPolicy.new 5 (.FixedDelay 1000)) c resps

/-- Rust `GetModelVersion` (`api_definitions.rs`). -/
structure GetModelVersion where
  id : String
  created_at : String
  cog_version : String
  openapi_schema : List (String × Json)

/-- Rust `GetModel` (`api_definitions.rs`): model metadata. -/
structure GetModel where
  url : String
  owner : String
  name : String
  description : String
  visibility : String
  github_url : Option String
  paper_url : Option String
  license_url : Option String
  run_count : Option Nat
  cover_image_url : Option String
  default_example : Option GetPrediction
  latest_version : Option GetModelVersion

/-- Rust `GetCollectionModels` (`api_definitions.rs`): collection metadata. -/
structure GetCollectionModels where
  name : String
  slug : String
  description : String
  models : List GetModel

/-- Rust `Prediction::get` (`prediction.rs` lines 187–204): a non-2xx response is
turned into `ReplicateError::ResponseError` carrying the raw body text; only
a 2xx body is deserialized. -/
def Prediction.get (dec : Decoder GetPrediction) (resp : SendResult) :
    Except ReplicateError GetPrediction :=
  match resp with
  | .err m => .error (.ReqwestError m)
  | .ok r =>
    if !r.success then
      .error (.ResponseError r.body)
    else
      match dec r.body with
      | none => .error (.SerdeError r.body)
      | some p => .ok p

/-- Rust `Model::get` (`model.rs` lines 71–92): the HTTP status is never
inspected; the body text is deserialized directly regardless of status. -/
def Model.get (dec : Decoder GetModel) (resp : SendResult) :
    Except ReplicateError GetModel :=
  match resp with
  | .err m => .error (.ReqwestError m)
  | .ok r =>
    match dec r.body with
    | none => .error (.SerdeError r.body)
    | some x => .ok x

/-- Rust `Collection::get` (`collection.rs` lines 49–68): the HTTP status is never
inspected; the body text is deserialized directly regardless of status. -/
def Collection.get (dec : Decoder GetCollectionModels) (resp : SendResult) :
    Except ReplicateError GetCollectionModels :=
  match resp with
  | .err m => .error (.ReqwestError m)
  | .ok r =>
    match dec r.body with
    | none => .error (.SerdeError r.body)
    | some x => .ok x

/-- A polled reply that `wait`'s loop treats as "retry": the send succeeded,
the body deserializes, and the reported status is non-terminal. -/
def decodesNonTerminal (dec : Decoder GetPrediction) (r : SendResult) : Prop :=
  ∃ hr p, r = SendResult.ok hr ∧ dec hr.body = some p ∧
    p.status.isTerminal = false

/-- A concrete configuration, for witnesses. -/
def cfg0 : Config :=
  ⟨"test-token", "replicate-rust/0.0.4", "http://localhost:1234"⟩

/-- Concrete prediction URLs, for witnesses. -/
def urls0 : PredictionsUrls :=
  ⟨"http://localhost:1234/predictions/p1/cancel",
   "http://localhost:1234/predictions/p1"⟩

/-- A concrete prediction entity with the given status, for witnesses. -/
def gp0 (st : PredictionStatus) : GetPrediction :=
  ⟨"p1", "v1", urls0, "2022-04-26T22:13:06Z", none, none, none, st,
   [("text", Json.str "world")], none, none, none, none⟩

/-- The concrete creation response entity, for witnesses. -/
def cp0 : CreatePrediction :=
  ⟨"p1", "v1", urls0, "2022-04-26T22:13:06Z", PredictionStatus.starting,
   [("text", Json.str "world")], none, none⟩

/-- A concrete lifecycle client holding `cp0`'s fields, for witnesses. -/
def client0 : PredictionClient :=
  ⟨cfg0, "p1", "v1", urls0, "2022-04-26T22:13:06Z", PredictionStatus.starting,
   [("text", Json.str "world")], none, none⟩

/-- A concrete `GetPrediction` decoder: recognizes one body text per status,
for witnesses. -/
def dec0 : Decoder GetPrediction := fun s =>
  if s = "body-starting" then some (gp0 .starting)
  else if s = "body-processing" then some (gp0 .processing)
  else if s = "body-succeeded" then some (gp0 .succeeded)
  else if s = "body-failed" then some (gp0 .failed)
  else if s = "body-canceled" then some (gp0 .canceled)
  else none

/-- A concrete `CreatePrediction` decoder, for witnesses. -/
def decC0 : Decoder CreatePrediction := fun s =>
  if s = "body-created" then some cp0 else none

/-- A body text a misbehaving server could attach to a 500 response: valid
prediction JSON. -/
def body500 : String :=
  "\x7b\"id\":\"p1\",\"status\":\"succeeded\"\x7d"

/-- A decoder under which `body500` deserializes as a succeeded prediction —
an instance of the black-box serde codec. -/
def dec500 : Decoder GetPrediction := fun s =>
  if s = body500 then some (gp0 .succeeded) else none

/-- Claim C4: for every `"{owner}/{name}:{version}"` string (pre-colon part
slash-containing), `parse_version` returns the pair (model, version) where
the model is exactly the substring before the first `:` and the version is
exactly the remainder after the first `:`, further colons included and
unchanged; for every string with no `:`, and for every string whose
pre-colon segment lacks `/`, it returns `none`. -/
theorem parse_version_correct :
    (∀ m v : String, m.data.contains ':' = false →
      m.data.contains '/' = true →
      parse_version (m ++ ":" ++ v) = some (m, v)) ∧
    (∀ s : String, s.data.contains ':' = false → parse_version s = none) ∧
    (∀ m v : String, m.data.contains ':' = false →
      m.data.contains '/' = false →
      parse_version (m ++ ":" ++ v) = none) :=
  ⟨parse_version_eq_some, parse_version_no_colon, parse_version_no_slash⟩

/-- Witness for `parse_version_correct`: a reference whose version part
contains further colons parses with the remainder kept whole; a string with
no colon fails; a slashless model part fails. -/
theorem parse_version_correct_witness :
    parse_version "owner/name:27b:93a" = some ("owner/name", "27b:93a") ∧
    parse_version "nocolon" = none ∧
    parse_version "ownername:v1" = none := by
  refine ⟨?_, parse_version_correct.2.1 "nocolon" (by decide), ?_⟩
  · exact parse_version_correct.1 "owner/name" "27b:93a" (by decide) (by decide)
  · exact parse_version_correct.2.2 "ownername" "v1" (by decide) (by decide)

/-- Claim C10: the parser imposes no constraint on the version part or on the
position of the `/`: any slash-containing pre-colon segment parses even with
an empty version part (`"owner/name:"` yields version `""`) and even with a
degenerate model part (`"/:v"` yields model `"/"`). -/
theorem parse_version_no_shape_constraints :
    (∀ m : String, m.data.contains ':' = false →
      m.data.contains '/' = true →
      parse_version (m ++ ":") = some (m, "")) ∧
    parse_version "/:v" = some ("/", "v") ∧
    parse_version "owner/name:" = some ("owner/name", "") := by
  refine ⟨fun m hm hs => ?_, by decide, by decide⟩
  have h := parse_version_eq_some m "" hm hs
  have he : (m ++ ":" ++ "" : String) = m ++ ":" := by
    apply String.ext
    simp [String.data_append]
  rwa [he] at h

/-- Witness for `parse_version_no_shape_constraints`: an empty version part
is accepted. -/
theorem parse_version_no_shape_constraints_witness :
    parse_version ("a/b" ++ ":") = some ("a/b", "") :=
  parse_version_no_shape_constraints.1 "a/b" (by decide) (by decide)

/-- Claim C2 (code bug): the spec promises an "invalid version string" error
from `create` when the parse fails, and `errors.rs` defines
`ReplicateError::InvalidVersionString` for exactly that — but the code calls
`parse_version(&version).unwrap()`, so for every version reference the
parser rejects, `create` panics before anything is sent; no error value of
any kind reaches the caller. -/
theorem create_panics_on_unparsable_version :
    ∀ (dec : Decoder CreatePrediction) (rep : Config) (inputs : InputMap)
      (resp : SendResult),
      (PredictionClient.create dec rep "this-string-has-no-separator" inputs
          resp).2 = CreateOutcome.panicked ∧
      (PredictionClient.create dec rep "this-string-has-no-separator" inputs
          resp).1 = none := by
  intro dec rep inputs resp
  have hp : parse_version "this-string-has-no-separator" = none :=
    parse_version_no_colon _ (by decide)
  rw [PredictionClient.create, hp]
  exact ⟨rfl, rfl⟩

/-- Claim C7: for every accepted reference `"{model}:{version}"` and every
input mapping, the request body `create` sends is exactly the
`PredictionPayload` holding the post-colon version part and the input
mapping; the pre-colon model part does not enter the payload (the result is
the same for every model part). -/
theorem create_body_version_and_input_only :
    ∀ (dec : Decoder CreatePrediction) (rep : Config) (m v : String)
      (inputs : InputMap) (resp : SendResult),
      m.data.contains ':' = false → m.data.contains '/' = true →
      (PredictionClient.create dec rep (m ++ ":" ++ v) inputs resp).1 =
        some ⟨v, inputs⟩ := by
  intro dec rep m v inputs resp hm hs
  rcases resp with mm | r
  · simp [PredictionClient.create, parse_version_eq_some m v hm hs]
  · by_cases hsu : r.success = true <;>
      cases hd : dec r.body <;>
        simp [PredictionClient.create, parse_version_eq_some m v hm hs, hsu, hd]

/-- Witness for `create_body_version_and_input_only`: a concrete create call
sends only the version part and the input mapping. -/
theorem create_body_version_and_input_only_witness :
    (PredictionClient.create decC0 cfg0 ("owner/name" ++ ":" ++ "ver123")
        [("text", Json.str "world")] (.ok ⟨true, "body-created"⟩)).1 =
      some ⟨"ver123", [("text", Json.str "world")]⟩ :=
  create_body_version_and_input_only decC0 cfg0 "owner/name" "ver123"
    [("text", Json.str "world")] (.ok ⟨true, "body-created"⟩)
    (by decide) (by decide)

/-- The polling loop, run on a script whose first terminally-decoding reply
follows a block of non-terminally-decoding ones: it returns at that first
terminal reply, having issued one GET per reply consumed and one
retry-policy step after each non-terminal reply and none after the terminal
one, ignoring the rest of the script. -/
theorem waitGo_first_terminal (dec : Decoder GetPrediction) (p : RetryPolicy)
    (c : PredictionClient) (t : SendResult) (rest : List SendResult)
    (hr : HttpResponse) (pr : GetPrediction)
    (ht : t = .ok hr) (hdec : dec hr.body = some pr)
    (hterm : pr.status.isTerminal = true) :
    ∀ pre : List SendResult, (∀ r ∈ pre, decodesNonTerminal dec r) →
      waitGo dec p c (pre ++ t :: rest) =
        (c, some ⟨pre.length + 1, List.replicate pre.length p.step,
                  .ok pr⟩) := by
  intro pre
  induction pre with
  | nil =>
    intro _
    subst ht
    cases hst : pr.status <;> rw [hst] at hterm <;>
      simp_all [waitGo, hdec, hst, PredictionStatus.isTerminal]
  | cons r pre' ih =>
    intro hpre
    obtain ⟨hr', p', hre, hdec', hnt⟩ := hpre r (List.mem_cons_self r pre')
    subst hre
    have hrec := ih fun x hx => hpre x (List.mem_cons_of_mem _ hx)
    cases hst : p'.status <;> rw [hst] at hnt <;>
      simp_all [waitGo, hdec', hst, PredictionStatus.isTerminal,
        List.replicate_succ]

/-- Claim C1: `wait()` returns at the first polled reply whose status is
terminal, invoking the retry policy's wait step (the fixed 1000 ms delay the
code configures) exactly once after each non-terminal reply and never after
the terminal one: polling a script of `n` non-terminal replies followed by a
terminal one performs `n + 1` GET polls, sleeps `n` times, and returns the
final entity; replies past the first terminal one are never requested. In
particular a starting/processing/succeeded script means three polls, two
sleeps, and the succeeded entity, and an immediately-failed script means one
poll and no sleep. -/
theorem wait_returns_at_first_terminal :
    ∀ (dec : Decoder GetPrediction) (c : PredictionClient)
      (pre : List SendResult) (t : SendResult) (rest : List SendResult)
      (hr : HttpResponse) (pr : GetPrediction),
      (∀ r ∈ pre, decodesNonTerminal dec r) →
      t = .ok hr → dec hr.body = some pr → pr.status.isTerminal = true →
      PredictionClient.wait dec c (pre ++ t :: rest) =
        (c, some ⟨pre.length + 1, List.replicate pre.length 1000,
                  .ok pr⟩) := by
  intro dec c pre t rest hr pr hpre ht hdec hterm
  exact waitGo_first_terminal dec (RetryPolicy.new 5 (.FixedDelay 1000)) c t
    rest hr pr ht hdec hterm pre hpre

/-- Witness for `wait_returns_at_first_terminal`: a
starting/processing/succeeded script yields exactly three polls, two 1000 ms
sleeps, and the succeeded entity; an immediately-failed script yields one
poll, no sleep, and the failed entity. -/
theorem wait_returns_at_first_terminal_witness :
    PredictionClient.wait dec0 client0
        [.ok ⟨true, "body-starting"⟩, .ok ⟨true, "body-processing"⟩,
         .ok ⟨true, "body-succeeded"⟩] =
      (client0, some ⟨3, [1000, 1000], .ok (gp0 .succeeded)⟩) ∧
    PredictionClient.wait dec0 client0 [.ok ⟨true, "body-failed"⟩] =
      (client0, some ⟨1, [], .ok (gp0 .failed)⟩) := by
  constructor
  · have h := wait_returns_at_first_terminal dec0 client0
      [.ok ⟨true, "body-starting"⟩, .ok ⟨true, "body-processing"⟩]
      (.ok ⟨true, "body-succeeded"⟩) [] ⟨true, "body-succeeded"⟩
      (gp0 .succeeded) ?_ rfl rfl rfl
    · exact h
    · intro r hrm
      rcases List.mem_cons.mp hrm with h1 | h1
      · exact ⟨⟨true, "body-starting"⟩, gp0 .starting, h1, rfl, rfl⟩
      · rcases List.mem_cons.mp h1 with h2 | h2
        · exact ⟨⟨true, "body-processing"⟩, gp0 .processing, h2, rfl, rfl⟩
        · exact absurd h2 (List.not_mem_nil r)
  · exact wait_returns_at_first_terminal dec0 client0 []
      (.ok ⟨true, "body-failed"⟩) [] ⟨true, "body-failed"⟩ (gp0 .failed)
      (fun r hrm => absurd hrm (List.not_mem_nil r)) rfl rfl rfl

/-- Claim C6: the polling loop never consults the retry policy's maximum
attempt count — its outcome is identical for every `max_retries` value —
and against a server that forever reports a non-terminal status `wait()`
never returns: every finite all-non-terminal reply script, of any length,
ends with the loop still polling (`none`), so the number of polls is
unbounded. -/
theorem wait_ignores_max_retries_and_is_unbounded :
    (∀ (dec : Decoder GetPrediction) (m₁ m₂ : Nat) (s : RetryStrategy)
        (c : PredictionClient) (rs : List SendResult),
      waitGo dec ⟨m₁, s⟩ c rs = waitGo dec ⟨m₂, s⟩ c rs) ∧
    (∀ (dec : Decoder GetPrediction) (c : PredictionClient)
        (rs : List SendResult),
      (∀ r ∈ rs, decodesNonTerminal dec r) →
      (PredictionClient.wait dec c rs).2 = none) := by
  constructor
  · intro dec m₁ m₂ s c rs
    induction rs with
    | nil => rfl
    | cons r rest ih =>
      rcases r with m | hr
      · rfl
      · cases hd : dec hr.body
        · simp [waitGo, hd]
        · rename_i pred
          cases hst : pred.status <;>
            simp_all [waitGo, hd, hst, RetryPolicy.step]
  · intro dec c rs
    suffices h : ∀ (p : RetryPolicy) (l : List SendResult),
        (∀ r ∈ l, decodesNonTerminal dec r) → (waitGo dec p c l).2 = none by
      intro hrs
      exact h _ rs hrs
    intro p l
    induction l with
    | nil => intro _; rfl
    | cons r rest ih =>
      intro hl
      obtain ⟨hr', p', hre, hdec', hnt⟩ := hl r (List.mem_cons_self r rest)
      subst hre
      have hrec := ih fun x hx => hl x (List.mem_cons_of_mem _ hx)
      rcases hw : waitGo dec p c rest with ⟨c', t⟩
      rw [hw] at hrec
      simp only at hrec
      subst hrec
      cases hst : p'.status <;> rw [hst] at hnt <;>
        simp_all [waitGo, hdec', hst, PredictionStatus.isTerminal, hw]

/-- Witness for `wait_ignores_max_retries_and_is_unbounded`: the loop outcome
with `max_retries = 0` equals the outcome with `max_retries = 99`, and a
two-reply all-non-terminal script leaves the loop still polling. -/
theorem wait_ignores_max_retries_and_is_unbounded_witness :
    waitGo dec0 ⟨0, .FixedDelay 1000⟩ client0 [.ok ⟨true, "body-starting"⟩] =
      waitGo dec0 ⟨99, .FixedDelay 1000⟩ client0
        [.ok ⟨true, "body-starting"⟩] ∧
    (PredictionClient.wait dec0 client0
        [.ok ⟨true, "body-starting"⟩, .ok ⟨true, "body-processing"⟩]).2 =
      none := by
  constructor
  · exact wait_ignores_max_retries_and_is_unbounded.1 dec0 0 99
      (.FixedDelay 1000) client0 [.ok ⟨true, "body-starting"⟩]
  · apply wait_ignores_max_retries_and_is_unbounded.2 dec0 client0
    intro r hrm
    rcases List.mem_cons.mp hrm with h1 | h1
    · exact ⟨⟨true, "body-starting"⟩, gp0 .starting, h1, rfl, rfl⟩
    · rcases List.mem_cons.mp h1 with h2 | h2
      · exact ⟨⟨true, "body-processing"⟩, gp0 .processing, h2, rfl, rfl⟩
      · exact absurd h2 (List.not_mem_nil r)

/-- Claim C9: `wait()` never modifies the lifecycle client's local state: for
every client, decoder and reply script, the client component it threads
through is the very client it started from (the final entity is returned as
a separate value, not stored). -/
theorem wait_preserves_client_state :
    ∀ (dec : Decoder GetPrediction) (c : PredictionClient)
      (rs : List SendResult),
      (PredictionClient.wait dec c rs).1 = c := by
  intro dec c rs
  suffices h : ∀ (p : RetryPolicy) (l : List SendResult),
      (waitGo dec p c l).1 = c from h _ rs
  intro p l
  induction l with
  | nil => rfl
  | cons r rest ih =>
    rcases r with m | hr
    · rfl
    · cases hd : dec hr.body
      · simp [waitGo, hd]
      · rename_i pred
        rcases hw : waitGo dec p c rest with ⟨c', t⟩
        rw [hw] at ih
        simp only at ih
        subst ih
        cases hst : pred.status <;> cases t <;>
          simp_all [waitGo, hd, hst, hw]

/-- Rust `reload` always addresses the prediction's self resource, rebuilt from
the base endpoint and the identifier. -/
theorem reload_fst (dec : Decoder GetPrediction) (c : PredictionClient)
    (resp : SendResult) :
    (c.reload dec resp).1 = c.parent.base_url ++ "/predictions/" ++ c.id := by
  rcases resp with m | r
  · rfl
  · cases hd : dec r.body <;> simp [PredictionClient.reload, hd]

/-- Claim C5: `cancel()` issues exactly one POST to the cancel sub-resource
and, unless that POST's send fails, exactly one GET of the self resource; it
surfaces whichever step failed first (the POST's transport error without
attempting the GET, else `reload`'s error with the state unchanged), and on
success the local status equals the status the GET returned. -/
theorem cancel_one_post_one_get :
    ∀ (dec : Decoder GetPrediction) (c : PredictionClient)
      (pr gr : SendResult),
      (∀ m, pr = .err m →
        PredictionClient.cancel dec c pr gr =
          ([Req.post (c.parent.base_url ++ "/predictions/" ++ c.id ++
              "/cancel")],
           c, .error (.ReqwestError m))) ∧
      (∀ hp, pr = .ok hp →
        (PredictionClient.cancel dec c pr gr).1 =
          [Req.post (c.parent.base_url ++ "/predictions/" ++ c.id ++
             "/cancel"),
           Req.get (c.parent.base_url ++ "/predictions/" ++ c.id)]) ∧
      (∀ hp e, pr = .ok hp → (c.reload dec gr).2 = .error e →
        (PredictionClient.cancel dec c pr gr).2 = (c, .error e)) ∧
      (∀ hp r p, pr = .ok hp → gr = .ok r → dec r.body = some p →
        (PredictionClient.cancel dec c pr gr).2.1.status = p.status ∧
          (PredictionClient.cancel dec c pr gr).2.2 = .ok ()) := by
  intro dec c pr gr
  refine ⟨?_, ?_, ?_, ?_⟩
  · intro m hm
    subst hm
    rfl
  · intro hp hm
    subst hm
    have hu := reload_fst dec c gr
    rcases hrl : c.reload dec gr with ⟨url, res⟩
    rw [hrl] at hu
    simp only at hu
    subst hu
    cases res <;> simp [PredictionClient.cancel, hrl]
  · intro hp e hm hres
    subst hm
    rcases hrl : c.reload dec gr with ⟨url, res⟩
    rw [hrl] at hres
    simp only at hres
    subst hres
    simp [PredictionClient.cancel, hrl]
  · intro hp r p hm hg hd
    subst hm
    subst hg
    constructor <;> simp [PredictionClient.cancel, PredictionClient.reload, hd]

/-- Witness for `cancel_one_post_one_get`: a concrete cancel whose GET
reports `canceled` issues the POST-then-GET pair and leaves the local status
`canceled`. -/
theorem cancel_one_post_one_get_witness :
    (PredictionClient.cancel dec0 client0 (.ok ⟨true, ""⟩)
        (.ok ⟨true, "body-canceled"⟩)).1 =
      [Req.post "http://localhost:1234/predictions/p1/cancel",
       Req.get "http://localhost:1234/predictions/p1"] ∧
    (PredictionClient.cancel dec0 client0 (.ok ⟨true, ""⟩)
        (.ok ⟨true, "body-canceled"⟩)).2.1.status =
      PredictionStatus.canceled ∧
    (PredictionClient.cancel dec0 client0 (.ok ⟨true, ""⟩)
        (.ok ⟨true, "body-canceled"⟩)).2.2 = .ok () := by
  have h := cancel_one_post_one_get dec0 client0 (.ok ⟨true, ""⟩)
    (.ok ⟨true, "body-canceled"⟩)
  refine ⟨h.2.1 ⟨true, ""⟩ rfl, ?_, ?_⟩
  · exact (h.2.2.2 ⟨true, ""⟩ ⟨true, "body-canceled"⟩ (gp0 .canceled) rfl rfl
      rfl).1
  · exact (h.2.2.2 ⟨true, ""⟩ ⟨true, "body-canceled"⟩ (gp0 .canceled) rfl rfl
      rfl).2

/-- Counterexample to **C3** as stated: `reload` never inspects the HTTP
status, so against a server that answers status 500 with `body500` — a body
that deserializes as a succeeded prediction — `reload` returns the
successfully-deserialized entity (updating the local status) instead of a
`ResponseError`. -/
theorem reload_returns_entity_on_non2xx :
    (PredictionClient.reload dec500 client0 (.ok ⟨false, body500⟩)).2 =
      .ok { client0 with status := PredictionStatus.succeeded } ∧
    (PredictionClient.reload dec500 client0 (.ok ⟨false, body500⟩)).2 ≠
      .error (.ResponseError body500) := by
  constructor
  · rfl
  · intro h
    exact Except.noConfusion h

/-- Claim C3 (amended): the accessors that inspect the HTTP status — such as
`predictions.get` — turn every non-2xx response into a `ResponseError`
carrying exactly the raw body text and never return an entity; but
`reload`, `models.get` and `collections.get` never consult the HTTP status:
their outcome on any body is identical for a 2xx and a non-2xx response, the
body being deserialized regardless. -/
theorem non2xx_error_policy :
    (∀ (dec : Decoder GetPrediction) (r : HttpResponse), r.success = false →
      Prediction.get dec (.ok r) = .error (.ResponseError r.body)) ∧
    (∀ (dec : Decoder GetPrediction) (c : PredictionClient) (b : String),
      (PredictionClient.reload dec c (.ok ⟨true, b⟩)).2 =
        (PredictionClient.reload dec c (.ok ⟨false, b⟩)).2) ∧
    (∀ (dec : Decoder GetModel) (b : String),
      Model.get dec (.ok ⟨true, b⟩) = Model.get dec (.ok ⟨false, b⟩)) ∧
    (∀ (dec : Decoder GetCollectionModels) (b : String),
      Collection.get dec (.ok ⟨true, b⟩) = Collection.get dec (.ok ⟨false, b⟩))
    := by
  refine ⟨?_, ?_, ?_, ?_⟩
  · intro dec r hs
    simp [Prediction.get, hs]
  · intro dec c b
    cases hd : dec b <;> simp [PredictionClient.reload, hd]
  · intro dec b
    cases hd : dec b <;> simp [Model.get, hd]
  · intro dec b
    cases hd : dec b <;> simp [Collection.get, hd]

/-- Witness for `non2xx_error_policy`: a concrete 404 response makes
`predictions.get` return the `ResponseError` holding the body text, while
`reload`'s outcome on a body is the same whether the status was 2xx or not.
-/
theorem non2xx_error_policy_witness :
    Prediction.get dec0 (.ok ⟨false, "not found"⟩) =
      .error (.ResponseError "not found") ∧
    (PredictionClient.reload dec500 client0 (.ok ⟨true, body500⟩)).2 =
      (PredictionClient.reload dec500 client0 (.ok ⟨false, body500⟩)).2 :=
  ⟨non2xx_error_policy.1 dec0 ⟨false, "not found"⟩ rfl,
   non2xx_error_policy.2.1 dec500 client0 body500⟩

/-- Claim C8: if `create` succeeds and `reload` is then run against a server
whose GET reply deserializes to the same field values the creation reply
reported, the reloaded client equals the one `create` returned in every
locally held field (id, version, urls, created_at, status, input, error,
logs). -/
theorem create_then_reload_is_identity :
    ∀ (decC : Decoder CreatePrediction) (decG : Decoder GetPrediction)
      (rep : Config) (ver : String) (inputs : InputMap) (resp : SendResult)
      (c : PredictionClient) (r : HttpResponse) (g : GetPrediction),
      (PredictionClient.create decC rep ver inputs resp).2 = .ok c →
      decG r.body = some g →
      g.id = c.id → g.version = c.version → g.urls = c.urls →
      g.created_at = c.created_at → g.status = c.status →
      g.input = c.input → g.error = c.error → g.logs = c.logs →
      (PredictionClient.reload decG c (.ok r)).2 = .ok c := by
  intro decC decG rep ver inputs resp c r g _ hdec h1 h2 h3 h4 h5 h6 h7 h8
  simp [PredictionClient.reload, hdec, h1, h2, h3, h4, h5, h6, h7, h8]

/-- Witness for `create_then_reload_is_identity`: a concrete create followed
by a reload whose GET reply repeats the creation fields returns the client
unchanged. -/
theorem create_then_reload_is_identity_witness :
    (PredictionClient.create decC0 cfg0 "owner/name:v1"
        [("text", Json.str "world")] (.ok ⟨true, "body-created"⟩)).2 =
      .ok client0 ∧
    (PredictionClient.reload dec0 client0 (.ok ⟨true, "body-starting"⟩)).2 =
      .ok client0 := by
  refine ⟨rfl, ?_⟩
  exact create_then_reload_is_identity decC0 dec0 cfg0 "owner/name:v1"
    [("text", Json.str "world")] (.ok ⟨true, "body-created"⟩) client0
    ⟨true, "body-starting"⟩ (gp0 .starting) rfl rfl rfl rfl rfl rfl rfl rfl
    rfl rfl

end Replicate
